import Mathlib

/-!
Verification of the myKiwoom dashboard client (src/static/js/app.js and the
second copy of the dashboard script, src/unnamed/part_000) against its
natural-language specification.  The JavaScript is shallowly embedded:
JS values become the inductive `JSVal`, JS numbers (IEEE doubles viewed
abstractly as NaN / ±Infinity / a finite value) become `JSNum`, DOM and
locale operations performed by the host browser become fields of a `Host`
record, and each event handler becomes a pure function from its inputs to a
new client state together with a list of observable `ClientAction`s.
-/

/-- Model of a JavaScript number: NaN, the two infinities, or a finite value
(modelled as a rational). -/
inductive JSNum where
  | nan
  | posInf
  | negInf
  | finite (q : ℚ)
deriving DecidableEq

/-- Model of a JavaScript value as the dashboard code manipulates them:
null, undefined, booleans, numbers, strings and (JSON) objects.  Objects are
association lists in key order; the scripts build objects without duplicate
keys. -/
inductive JSVal where
  | null
  | undefined
  | bool (b : Bool)
  | num (n : JSNum)
  | str (s : String)
  | obj (fields : List (String × JSVal))

/-- Property access `o.k` on a parsed JSON object: the first binding of the
key, or `undefined` when the key is absent. -/
def getField (fields : List (String × JSVal)) (k : String) : JSVal :=
  match fields.find? (fun p => p.1 = k) with
  | some p => p.2
  | none => JSVal.undefined

/-- JavaScript truthiness, as used by `if (data.success)` and by the guard
`data.data && ...`. -/
def truthy : JSVal → Bool
  | .null => false
  | .undefined => false
  | .bool b => b
  | .num .nan => false
  | .num (.finite q) => decide (q ≠ 0)
  | .num _ => true
  | .str s => decide (s ≠ "")
  | .obj _ => true

/-- Strict equality test against the literal `false`, as in
`data.success === false` (only the boolean `false` passes). -/
def strictEqFalse : JSVal → Bool
  | .bool false => true
  | _ => false

/-- Test for the three explicitly special-cased inputs of the formatting
helpers: `num === null || num === undefined || num === ''`. -/
def isNullUndefEmpty : JSVal → Bool
  | .null => true
  | .undefined => true
  | .str "" => true
  | _ => false

/-- Rendering of a JS number as a string (used when a value flows into a
template literal); finite values are rendered via `ℚ`'s printer, which the
claims never depend on. -/
def jsNumToString : JSNum → String
  | .nan => "NaN"
  | .posInf => "Infinity"
  | .negInf => "-Infinity"
  | .finite q => toString q

/-- String coercion of a JS value, as performed by template literals such as
the subscribed-event alert and by `showAlert(data.message)`. -/
def jsToString : JSVal → String
  | .null => "null"
  | .undefined => "undefined"
  | .bool true => "true"
  | .bool false => "false"
  | .num n => jsNumToString n
  | .str s => s
  | .obj _ => "[object Object]"

/-- Whitespace skipped by JavaScript's `parseFloat` before the number. -/
def isSpaceJS (c : Char) : Bool :=
  c = ' ' || c = '\t' || c = '\n' || c = '\r'

/-- Value of a list of decimal digit characters. -/
def digitsVal (ds : List Char) : Nat :=
  ds.foldl (fun a c => a * 10 + (c.toNat - 48)) 0

/-- Signed exponent digits after the `e`/`E` of a float literal; when no
digits follow, `parseFloat` ignores the exponent part, which coincides with
an exponent of 0. -/
def parseSignedDigits : List Char → Int
  | '+' :: d => (digitsVal (d.takeWhile Char.isDigit) : Int)
  | '-' :: d => -((digitsVal (d.takeWhile Char.isDigit) : Int))
  | d => (digitsVal (d.takeWhile Char.isDigit) : Int)

/-- Optional exponent part of a float literal. -/
def parseExponent : List Char → Int
  | 'e' :: t => parseSignedDigits t
  | 'E' :: t => parseSignedDigits t
  | _ => 0

/-- Decimal part of `parseFloat` after sign handling: digits, an optional
fraction and an optional exponent; `none` when not even one digit is
present (so the overall parse yields NaN). -/
def parseDecimal (cs : List Char) : Option ℚ :=
  let intPart := cs.takeWhile Char.isDigit
  let rest := cs.dropWhile Char.isDigit
  let fracPart :=
    match rest with
    | '.' :: t => t.takeWhile Char.isDigit
    | _ => []
  let rest2 :=
    match rest with
    | '.' :: t => t.dropWhile Char.isDigit
    | _ => rest
  if intPart.isEmpty && fracPart.isEmpty then none
  else
    let base : ℚ := (digitsVal intPart : ℚ) + (digitsVal fracPart : ℚ) / ((10 : ℚ) ^ fracPart.length)
    some (base * (10 : ℚ) ^ parseExponent rest2)

/-- JavaScript `parseFloat` on a string: skip leading whitespace, read an
optional sign, then either `Infinity` or a decimal literal prefix; NaN when
no number can be read. -/
def parseFloatString (s : String) : JSNum :=
  let cs := s.toList.dropWhile isSpaceJS
  let neg : Bool :=
    match cs with
    | '-' :: _ => true
    | _ => false
  let cs2 : List Char :=
    match cs with
    | '-' :: t => t
    | '+' :: t => t
    | _ => cs
  if cs2.take 8 = "Infinity".toList then
    if neg then JSNum.negInf else JSNum.posInf
  else
    match parseDecimal cs2 with
    | none => JSNum.nan
    | some q => JSNum.finite (if neg then -q else q)

/-- JavaScript `parseFloat` on an arbitrary value: the argument is coerced
to a string first, so null, undefined, booleans and plain objects give NaN,
and a number round-trips through its decimal printing (identity in this
model). -/
def parseFloatJS : JSVal → JSNum
  | .str s => parseFloatString s
  | .num n => n
  | .null => JSNum.nan
  | .undefined => JSNum.nan
  | .bool _ => JSNum.nan
  | .obj _ => JSNum.nan

/-- Operations the scripts delegate to the host browser: locale-sensitive
number rendering (`toLocaleString('ko-KR')`, `toFixed(2)`) and `Date`
construction followed by locale rendering.  The date/time fields return
`none` when the host operation throws, which the scripts catch. -/
structure Host where
  toLocaleStringKoKR : JSNum → String
  toFixed2 : JSNum → String
  dateToLocaleDateString : JSVal → Option String
  dateToLocaleTimeString : JSVal → Option String

/-- A trivial host used to evaluate the model at concrete inputs. -/
def defaultHost : Host :=
  { toLocaleStringKoKR := fun n => jsNumToString n
    toFixed2 := fun n => jsNumToString n
    dateToLocaleDateString := fun _ => none
    dateToLocaleTimeString := fun _ => none }

/-- The client-side state mutated by the dashboard script: the global
`isAuthenticated` flag, and the auth section of the page as set by
`updateAuthUI` (`true` when the logout button / connected indicator is
shown, `false` when the login button / disconnected indicator is shown). -/
structure ClientState where
  isAuthenticated : Bool
  authUI : Bool
deriving DecidableEq

/-- Observable actions the handlers perform besides mutating `ClientState`:
alerts, loading spinner, console logs, scheduled callbacks (`setTimeout`),
socket-driven calls and DOM updates. -/
inductive ClientAction where
  | showLoading (b : Bool)
  | showAlert (message kind : String)
  | logConsole (message : String)
  | scheduleRefreshDashboard
  | callRefreshDashboard
  | scheduleReload
  | scheduleCheckAuthStatus
  | clearDashboard
  | showLoginProgressModal
  | updateLoginProgress (message kind : String)
  | hideLoginProgressModal
  | updateConnectionStatus (connected : Bool)
  | callHandleRealTimeUpdate (payload : List (String × JSVal))
  | callUpdateRealTimeData (data : JSVal)
  | callSearchStockInfo (code : String)

/-- Embedding of `updateAuthUI(authenticated)` (identical in
src/static/js/app.js lines 138-151 and src/unnamed/part_000 lines 138-151):
switches the auth section of the page to the authenticated or the
unauthenticated (login) presentation. -/
def updateAuthUI (st : ClientState) (authenticated : Bool) : ClientState :=
  { st with authUI := authenticated }

/-- A fetch response as `apiRequest` observes it: the HTTP status and the
result of `response.json()` (`Except.error` when the body is not JSON). -/
structure ApiResponse where
  status : Nat
  body : Except Unit (List (String × JSVal))

/-- The `response.ok` predicate of the Fetch API: status in the range
200-299. -/
def respOk (status : Nat) : Bool :=
  200 ≤ status && status ≤ 299

/-- Errors `apiRequest` can throw: the `HTTP error! status: ...` error for a
non-ok response, or a rethrown body-parse failure. -/
inductive ApiError where
  | httpError (status : Nat)
  | jsonError
deriving DecidableEq

namespace AppJs

/-- Embedding of `formatNumber(num)` from src/static/js/app.js lines
472-483: returns the string `0` on null / undefined / empty string and on
values `parseFloat` cannot parse, otherwise the host's
`toLocaleString('ko-KR')` rendering. -/
def formatNumber (host : Host) (num : JSVal) : String :=
  if isNullUndefEmpty num then "0"
  else
    let number := parseFloatJS num
    if number = JSNum.nan then "0"
    else host.toLocaleStringKoKR number

/-- Embedding of `formatCurrency(amount)` from src/static/js/app.js lines
488-490. -/
def formatCurrency (host : Host) (amount : JSVal) : String :=
  formatNumber host amount ++ "원"

/-- Embedding of `formatPercentage(rate)` from src/static/js/app.js lines
495-506. -/
def formatPercentage (host : Host) (rate : JSVal) : String :=
  if isNullUndefEmpty rate then "0.00%"
  else
    let number := parseFloatJS rate
    if number = JSNum.nan then "0.00%"
    else host.toFixed2 number ++ "%"

/-- Embedding of `formatDate(dateString)` from src/static/js/app.js lines
511-520: `-` on a falsy input, the host's locale date rendering otherwise,
and the original input when the host throws (the catch branch). -/
def formatDate (host : Host) (dateString : JSVal) : JSVal :=
  if !truthy dateString then JSVal.str "-"
  else
    match host.dateToLocaleDateString dateString with
    | some r => JSVal.str r
    | none => dateString

/-- Embedding of `formatTime(timeString)` from src/static/js/app.js lines
525-534. -/
def formatTime (host : Host) (timeString : JSVal) : JSVal :=
  if !truthy timeString then JSVal.str "-"
  else
    match host.dateToLocaleTimeString timeString with
    | some r => JSVal.str r
    | none => timeString

/-- Embedding of `apiRequest(url, options)` from src/static/js/app.js lines
539-568: throws on a non-ok status or an unparsable body; on a body with
`success === false && authenticated === false` clears `isAuthenticated`,
switches the auth UI to the unauthenticated state and alerts, and in every
non-throwing case returns the parsed body. -/
def apiRequest (st : ClientState) (resp : ApiResponse) :
    ClientState × List ClientAction × Except ApiError (List (String × JSVal)) :=
  if !respOk resp.status then
    (st, [], Except.error (ApiError.httpError resp.status))
  else
    match resp.body with
    | Except.error _ => (st, [], Except.error ApiError.jsonError)
    | Except.ok data =>
      if strictEqFalse (getField data "success") && strictEqFalse (getField data "authenticated") then
        (updateAuthUI { st with isAuthenticated := false } false,
         [ClientAction.logConsole "인증 실패 감지, 자동 로그아웃 처리",
          ClientAction.showAlert "세션이 만료되었습니다. 다시 로그인해주세요." "warning"],
         Except.ok data)
      else
        (st, [], Except.ok data)

/-- Embedding of `login()` from src/static/js/app.js lines 156-190, as a
function of the fetched `/api/auth/login` response (`Except.error` when
fetch or JSON parsing threw).  On a truthy `success` it sets
`isAuthenticated`, switches the auth UI to the authenticated state, alerts
the message and schedules `refreshDashboard`; otherwise it alerts the
failure message and leaves the state unchanged. -/
def login (st : ClientState) (resp : Except Unit (List (String × JSVal))) :
    ClientState × List ClientAction :=
  match resp with
  | Except.error _ =>
    (st, [ClientAction.showLoading true, ClientAction.logConsole "로그인 시도 시작",
          ClientAction.showAlert "로그인 중 오류가 발생했습니다." "danger", ClientAction.showLoading false])
  | Except.ok data =>
    if truthy (getField data "success") then
      (updateAuthUI { st with isAuthenticated := true } true,
       [ClientAction.showLoading true, ClientAction.logConsole "로그인 시도 시작",
        ClientAction.showAlert (jsToString (getField data "message")) "success",
        ClientAction.scheduleRefreshDashboard, ClientAction.showLoading false])
    else
      (st, [ClientAction.showLoading true, ClientAction.logConsole "로그인 시도 시작",
            ClientAction.showAlert (jsToString (getField data "message")) "danger",
            ClientAction.showLoading false])

/-- Embedding of `logout()` from src/static/js/app.js lines 195-230, as a
function of the confirm-dialog answer and the fetched `/api/auth/logout`
response.  When confirmed and `success` is truthy it clears
`isAuthenticated`, switches the auth UI to the unauthenticated state,
alerts the message and schedules a page reload. -/
def logout (st : ClientState) (confirmed : Bool) (resp : Except Unit (List (String × JSVal))) :
    ClientState × List ClientAction :=
  if !confirmed then (st, [])
  else
    match resp with
    | Except.error _ =>
      (st, [ClientAction.showLoading true,
            ClientAction.showAlert "로그아웃 중 오류가 발생했습니다." "danger", ClientAction.showLoading false])
    | Except.ok data =>
      if truthy (getField data "success") then
        (updateAuthUI { st with isAuthenticated := false } false,
         [ClientAction.showLoading true,
          ClientAction.showAlert (jsToString (getField data "message")) "info",
          ClientAction.scheduleReload, ClientAction.showLoading false])
      else
        (st, [ClientAction.showLoading true,
              ClientAction.showAlert (jsToString (getField data "message")) "danger",
              ClientAction.showLoading false])

end AppJs

/-- List of the keys of a value as `Object.keys` returns them (only invoked
by the script under a truthiness guard, so null/undefined never reach it):
the own keys for an object, one index per character for a string, and empty
for primitives. -/
def objectKeys : JSVal → List String
  | JSVal.obj fields => fields.map Prod.fst
  | JSVal.str s => (List.range s.length).map toString
  | _ => []

/-- Embedding of `handleRealTimeUpdate(data)` (identical in
src/static/js/app.js lines 285-291 and src/unnamed/part_000 lines 430-436):
calls `updateRealTimeData(data.data)` only when `data.data` is truthy and
has at least one key. -/
def handleRealTimeUpdate (data : List (String × JSVal)) : List ClientAction :=
  let d := getField data "data"
  if truthy d && 0 < (objectKeys d).length then
    [ClientAction.callUpdateRealTimeData d]
  else
    []

/-- Handler registered for the transport-level `connect` event in
`connectWebSocket` (identical in src/static/js/app.js lines 239-242 and
src/unnamed/part_000 lines 384-387). -/
def onConnect (_data : List (String × JSVal)) : List ClientAction :=
  [ClientAction.logConsole "웹소켓 연결됨", ClientAction.updateConnectionStatus true]

/-- Handler registered for the transport-level `disconnect` event in
`connectWebSocket`. -/
def onDisconnect (_data : List (String × JSVal)) : List ClientAction :=
  [ClientAction.logConsole "웹소켓 연결 끊김", ClientAction.updateConnectionStatus false]

/-- Handler registered for the `status` push event in `connectWebSocket`:
it only logs. -/
def onStatus (_data : List (String × JSVal)) : List ClientAction :=
  [ClientAction.logConsole "서버 상태:"]

/-- Handler registered for the `update` push event in `connectWebSocket`:
logs and dispatches the payload to `handleRealTimeUpdate`. -/
def onUpdate (data : List (String × JSVal)) : List ClientAction :=
  [ClientAction.logConsole "실시간 업데이트:", ClientAction.callHandleRealTimeUpdate data]

/-- Handler registered for the `subscribed` push event in
`connectWebSocket`: logs and alerts with the subscribed `stock_code`
(template literal of src/static/js/app.js line 261). -/
def onSubscribed (data : List (String × JSVal)) : List ClientAction :=
  [ClientAction.logConsole "구독됨:",
   ClientAction.showAlert (jsToString (getField data "stock_code") ++ " 종목 구독됨") "info"]

/-- The socket handler table built by `connectWebSocket` (identical in
src/static/js/app.js lines 235-267 and src/unnamed/part_000 lines 380-412):
one `socket.on(event, handler)` registration per entry, in registration
order. -/
def socketHandlers : List (String × (List (String × JSVal) → List ClientAction)) :=
  [("connect", onConnect),
   ("disconnect", onDisconnect),
   ("status", onStatus),
   ("update", onUpdate),
   ("subscribed", onSubscribed)]

/-- The interval, in milliseconds, passed to `setInterval` by
`setupAutoRefresh` (identical in src/static/js/app.js lines 378-385 and
src/unnamed/part_000 lines 523-530). -/
def refreshIntervalMs : Nat := 60000

/-- Body of the `setupAutoRefresh` timer callback: refresh the dashboard
only when `isAuthenticated` is set and a `refreshDashboard` function is
defined on the page. -/
def autoRefreshTick (st : ClientState) (refreshDashboardDefined : Bool) : List ClientAction :=
  if st.isAuthenticated && refreshDashboardDefined then
    [ClientAction.callRefreshDashboard]
  else
    []

/-- Body of the `input` listener installed on the stock-code field by
`setupEventListeners` (identical in src/static/js/app.js lines 319-328 and
src/unnamed/part_000 lines 464-473): call `searchStockInfo(value)` exactly
when the entered value has at least 6 characters. -/
def stockCodeInputHandler (value : String) : List ClientAction :=
  if 6 ≤ value.length then [ClientAction.callSearchStockInfo value] else []

/-- Whether the stock-code input listener issues a quote lookup request
(`searchStockInfo` performs the fetch of `/api/quote/stock/{code}`). -/
def issuesQuoteRequest (value : String) : Bool :=
  !(stockCodeInputHandler value).isEmpty

/-- A 6-digit symbol code in the sense of the data model: a fixed-length
numeric string of length 6. -/
def isSixDigitSymbolCode (s : String) : Bool :=
  s.length = 6 && s.toList.all Char.isDigit

namespace Part000

/-- Embedding of `formatNumber(num)` from src/unnamed/part_000 lines
640-651 (textually identical to the src/static/js/app.js copy). -/
def formatNumber (host : Host) (num : JSVal) : String :=
  if isNullUndefEmpty num then "0"
  else
    let number := parseFloatJS num
    if number = JSNum.nan then "0"
    else host.toLocaleStringKoKR number

/-- Embedding of `formatCurrency(amount)` from src/unnamed/part_000 lines
656-658. -/
def formatCurrency (host : Host) (amount : JSVal) : String :=
  formatNumber host amount ++ "원"

/-- Embedding of `formatPercentage(rate)` from src/unnamed/part_000 lines
663-674. -/
def formatPercentage (host : Host) (rate : JSVal) : String :=
  if isNullUndefEmpty rate then "0.00%"
  else
    let number := parseFloatJS rate
    if number = JSNum.nan then "0.00%"
    else host.toFixed2 number ++ "%"

/-- Embedding of `formatDate(dateString)` from src/unnamed/part_000 lines
679-688. -/
def formatDate (host : Host) (dateString : JSVal) : JSVal :=
  if !truthy dateString then JSVal.str "-"
  else
    match host.dateToLocaleDateString dateString with
    | some r => JSVal.str r
    | none => dateString

/-- Embedding of `formatTime(timeString)` from src/unnamed/part_000 lines
693-702. -/
def formatTime (host : Host) (timeString : JSVal) : JSVal :=
  if !truthy timeString then JSVal.str "-"
  else
    match host.dateToLocaleTimeString timeString with
    | some r => JSVal.str r
    | none => timeString

/-- Embedding of `apiRequest(url, options)` from src/unnamed/part_000 lines
707-736 (textually identical to the src/static/js/app.js copy). -/
def apiRequest (st : ClientState) (resp : ApiResponse) :
    ClientState × List ClientAction × Except ApiError (List (String × JSVal)) :=
  if !respOk resp.status then
    (st, [], Except.error (ApiError.httpError resp.status))
  else
    match resp.body with
    | Except.error _ => (st, [], Except.error ApiError.jsonError)
    | Except.ok data =>
      if strictEqFalse (getField data "success") && strictEqFalse (getField data "authenticated") then
        (updateAuthUI { st with isAuthenticated := false } false,
         [ClientAction.logConsole "인증 실패 감지, 자동 로그아웃 처리",
          ClientAction.showAlert "세션이 만료되었습니다. 다시 로그인해주세요." "warning"],
         Except.ok data)
      else
        (st, [], Except.ok data)

/-- Embedding of `login()` from src/unnamed/part_000 lines 156-201: this
copy shows a progress modal; on a truthy `success` it sets
`isAuthenticated`, switches the auth UI to the authenticated state and,
from the 2-second completion timeout, hides the modal, alerts and calls
`refreshDashboard`; on failure it hides the modal and alerts the failure
message. -/
def login (st : ClientState) (resp : Except Unit (List (String × JSVal))) :
    ClientState × List ClientAction :=
  match resp with
  | Except.error _ =>
    (st, [ClientAction.showLoading true, ClientAction.logConsole "로그인 시도 시작",
          ClientAction.showLoginProgressModal, ClientAction.hideLoginProgressModal,
          ClientAction.showAlert "로그인 중 오류가 발생했습니다." "danger",
          ClientAction.showLoading false])
  | Except.ok data =>
    if truthy (getField data "success") then
      (updateAuthUI { st with isAuthenticated := true } true,
       [ClientAction.showLoading true, ClientAction.logConsole "로그인 시도 시작",
        ClientAction.showLoginProgressModal,
        ClientAction.updateLoginProgress "✅ 로그인 성공! 매수 체결내역 수집이 완료되었습니다." "success",
        ClientAction.hideLoginProgressModal,
        ClientAction.showAlert "✅ 로그인 성공!" "success",
        ClientAction.scheduleRefreshDashboard,
        ClientAction.showLoading false])
    else
      (st, [ClientAction.showLoading true, ClientAction.logConsole "로그인 시도 시작",
            ClientAction.showLoginProgressModal, ClientAction.hideLoginProgressModal,
            ClientAction.showAlert (jsToString (getField data "message")) "danger",
            ClientAction.showLoading false])

/-- Embedding of `logout()` from src/unnamed/part_000 lines 329-375: when
confirmed and `success` is truthy it clears `isAuthenticated`, switches the
auth UI to the unauthenticated state, clears the dashboard, alerts the
message and schedules `checkAuthStatus` (instead of the page reload of the
src/static/js/app.js copy). -/
def logout (st : ClientState) (confirmed : Bool) (resp : Except Unit (List (String × JSVal))) :
    ClientState × List ClientAction :=
  if !confirmed then (st, [])
  else
    match resp with
    | Except.error _ =>
      (st, [ClientAction.showLoading true,
            ClientAction.showAlert "로그아웃 중 오류가 발생했습니다." "danger",
            ClientAction.showLoading false])
    | Except.ok data =>
      if truthy (getField data "success") then
        (updateAuthUI { st with isAuthenticated := false } false,
         [ClientAction.showLoading true, ClientAction.clearDashboard,
          ClientAction.showAlert (jsToString (getField data "message")) "info",
          ClientAction.scheduleCheckAuthStatus, ClientAction.showLoading false])
      else
        (st, [ClientAction.showLoading true,
              ClientAction.showAlert (jsToString (getField data "message")) "danger",
              ClientAction.showLoading false])

end Part000

/-- Modelled from the spec: buy or sell side of an OrderRequest (the order
placement backend of this repository is not under src/). -/
inductive OrderSide where
  | buy
  | sell
deriving DecidableEq

/-- Modelled from the spec: order funding type; only cash orders exist,
credit order types are excluded by design. -/
inductive OrderType where
  | cash
deriving DecidableEq

/-- Modelled from the spec: an OrderRequest of the data model,
`{symbol_code, side, quantity: positive integer, price: positive decimal,
order_type}`. -/
structure OrderRequest where
  symbol_code : String
  side : OrderSide
  quantity : Int
  price : ℚ
  order_type : OrderType

/-- Modelled from the spec: the OrderRequest invariants checked before
submission — `symbol_code` is a fixed-length (6-digit) numeric string, and
quantity and price are positive. -/
def validOrderRequest (r : OrderRequest) : Bool :=
  isSixDigitSymbolCode r.symbol_code && 0 < r.quantity && 0 < r.price

/-- Modelled from the spec: the specific field-level message of a
ValidationError. -/
def orderValidationMessage (r : OrderRequest) : String :=
  if !isSixDigitSymbolCode r.symbol_code then "symbol_code must be a 6-digit numeric string"
  else if !(0 < r.quantity : Bool) then "quantity must be positive"
  else "price must be positive"

/-- Response of the external Broker API to an order submission. -/
structure BrokerResponse where
  success : Bool
  message : String

/-- Result of the order placement route: either a validation-error response
produced before any network call, or the broker's response. -/
inductive OrderRouteResult where
  | validationError (message : String)
  | brokerResponse (resp : BrokerResponse)

/-- Modelled from the spec: the order placement route of the HTTP Facade
(not under src/) — it validates the request shape first and returns a
validation-error response without calling the Broker API Client when an
invariant is violated; the second component counts the network calls made
to the broker. -/
def placeOrderRoute (broker : OrderRequest → BrokerResponse) (r : OrderRequest) :
    OrderRouteResult × Nat :=
  if validOrderRequest r then
    (OrderRouteResult.brokerResponse (broker r), 1)
  else
    (OrderRouteResult.validationError (orderValidationMessage r), 0)

/-- Modelled from the spec: the process-wide Session of the Session Gate
(the server-side Session Gate is not under src/):
`{authenticated, access_token, token_expiry}`. -/
structure Session where
  authenticated : Bool
  access_token : String
  token_expiry : Nat
deriving DecidableEq

/-- Result shape `{success, message}` of the Session Gate operations. -/
structure OpResult where
  success : Bool
  message : String

/-- Modelled from the spec: the cleared Session an unauthenticated process
holds. -/
def clearedSession : Session :=
  { authenticated := false, access_token := "", token_expiry := 0 }

/-- Modelled from the spec: `logout()` of the Session Gate clears the
Session state unconditionally and succeeds (idempotent — calling it twice
is not an error). -/
def sessionLogout (_s : Session) : Session × OpResult :=
  (clearedSession, { success := true, message := "로그아웃되었습니다." })

/-- Modelled from the spec: `status()` of the Session Gate is a pure read
of the current Session's authenticated flag. -/
def sessionStatus (s : Session) : Bool :=
  s.authenticated

/-- The bad inputs of the numeric formatting helpers: null, undefined, the
empty string, or a value `parseFloat` cannot parse as a number. -/
def badNumericInput (v : JSVal) : Bool :=
  isNullUndefEmpty v || decide (parseFloatJS v = JSNum.nan)

/-- C1: for every JSON API response (an HTTP-ok status with a parsed body)
whose body has `success === false` and `authenticated === false`,
`apiRequest` performs a client-side forced logout — it clears the global
`isAuthenticated` flag and switches the auth UI to the unauthenticated
(login) state — while for every other body shape it leaves the
authentication state unchanged; in both cases it returns the parsed
body. -/
theorem apiRequest_forces_logout_iff_unauthenticated
    (st : ClientState) (resp : ApiResponse) (data : List (String × JSVal))
    (hok : respOk resp.status = true) (hbody : resp.body = Except.ok data) :
    (AppJs.apiRequest st resp).2.2 = Except.ok data ∧
    ((strictEqFalse (getField data "success") &&
        strictEqFalse (getField data "authenticated")) = true →
      (AppJs.apiRequest st resp).1.isAuthenticated = false ∧
      (AppJs.apiRequest st resp).1.authUI = false) ∧
    ((strictEqFalse (getField data "success") &&
        strictEqFalse (getField data "authenticated")) = false →
      (AppJs.apiRequest st resp).1 = st) := by
  have key : AppJs.apiRequest st resp =
      if strictEqFalse (getField data "success") &&
          strictEqFalse (getField data "authenticated") then
        (updateAuthUI { st with isAuthenticated := false } false,
         [ClientAction.logConsole "인증 실패 감지, 자동 로그아웃 처리",
          ClientAction.showAlert "세션이 만료되었습니다. 다시 로그인해주세요." "warning"],
         Except.ok data)
      else (st, [], Except.ok data) := by
    unfold AppJs.apiRequest
    rw [hok, hbody]
    rfl
  rw [key]
  cases hb : (strictEqFalse (getField data "success") &&
      strictEqFalse (getField data "authenticated")) with
  | true => simp [hb, updateAuthUI]
  | false => simp [hb]

/-- Witness for C1 at a concrete forced-logout response and a concrete
success response. -/
theorem apiRequest_forces_logout_witness :
    (AppJs.apiRequest ⟨true, true⟩
      { status := 200,
        body := Except.ok [("success", JSVal.bool false), ("authenticated", JSVal.bool false)] }).1.isAuthenticated = false ∧
    (AppJs.apiRequest ⟨false, false⟩
      { status := 200, body := Except.ok [("success", JSVal.bool true)] }).1 = ⟨false, false⟩ :=
  ⟨((apiRequest_forces_logout_iff_unauthenticated ⟨true, true⟩ _ _ (by decide) rfl).2.1 (by decide)).1,
   (apiRequest_forces_logout_iff_unauthenticated ⟨false, false⟩ _ _ (by decide) rfl).2.2 (by decide)⟩

/-- C2: for every OrderRequest violating an invariant (non-positive
quantity, non-positive price, or malformed symbol code), the order
placement route makes no network call to the broker and returns a
ValidationError response; modelled from the spec, the backend route being
outside src/. -/
theorem invalid_order_no_network_call
    (broker : OrderRequest → BrokerResponse) (r : OrderRequest)
    (hinv : validOrderRequest r = false) :
    (placeOrderRoute broker r).2 = 0 ∧
    (placeOrderRoute broker r).1 = OrderRouteResult.validationError (orderValidationMessage r) := by
  simp [placeOrderRoute, hinv]

/-- Witness for C2 at the spec's own example, a zero-quantity buy of
005930. -/
theorem invalid_order_no_network_call_witness :
    validOrderRequest ⟨"005930", OrderSide.buy, 0, 70000, OrderType.cash⟩ = false ∧
    (placeOrderRoute (fun _ => ⟨true, "ok"⟩)
        ⟨"005930", OrderSide.buy, 0, 70000, OrderType.cash⟩).2 = 0 :=
  ⟨by decide, (invalid_order_no_network_call _ _ (by decide)).1⟩

/-- C3: logout is idempotent and unconditional — the Session Gate's logout
(modelled from the spec) always succeeds, the observed authenticated state
afterwards is false regardless of the prior Session, and a second logout
also succeeds; and in both copies of the client script a logout response
with `success == true` always results in `isAuthenticated == false`. -/
theorem logout_idempotent_unconditional :
    (∀ s : Session,
      (sessionLogout s).2.success = true ∧
      sessionStatus (sessionLogout s).1 = false ∧
      (sessionLogout (sessionLogout s).1).2.success = true) ∧
    (∀ (st : ClientState) (data : List (String × JSVal)),
      getField data "success" = JSVal.bool true →
      (AppJs.logout st true (Except.ok data)).1.isAuthenticated = false) ∧
    (∀ (st : ClientState) (data : List (String × JSVal)),
      getField data "success" = JSVal.bool true →
      (Part000.logout st true (Except.ok data)).1.isAuthenticated = false) := by
  refine ⟨fun s => ⟨rfl, rfl, rfl⟩, fun st data h => ?_, fun st data h => ?_⟩ <;>
    simp [AppJs.logout, Part000.logout, h, truthy, updateAuthUI]

/-- Witness for C3 at a concrete authenticated Session and a concrete
successful logout response. -/
theorem logout_idempotent_unconditional_witness :
    sessionStatus (sessionLogout ⟨true, "token", 99⟩).1 = false ∧
    (AppJs.logout ⟨true, true⟩ true
        (Except.ok [("success", JSVal.bool true), ("message", JSVal.str "bye")])).1.isAuthenticated = false ∧
    (Part000.logout ⟨true, true⟩ true
        (Except.ok [("success", JSVal.bool true), ("message", JSVal.str "bye")])).1.isAuthenticated = false :=
  ⟨(logout_idempotent_unconditional.1 ⟨true, "token", 99⟩).2.1,
   logout_idempotent_unconditional.2.1 ⟨true, true⟩ _ rfl,
   logout_idempotent_unconditional.2.2 ⟨true, true⟩ _ rfl⟩

/-- C4: the dashboard auto-refresh timer runs on a fixed wall-clock
interval in the 30-60 second range (60000 ms), and a timer tick triggers a
dashboard refresh only when the session is authenticated; when
`isAuthenticated` is false the tick performs no refresh call. -/
theorem autoRefresh_interval_and_auth_gate :
    (30 * 1000 ≤ refreshIntervalMs ∧ refreshIntervalMs ≤ 60 * 1000) ∧
    (∀ (st : ClientState) (d : Bool), autoRefreshTick st d ≠ [] → st.isAuthenticated = true) ∧
    (∀ (st : ClientState) (d : Bool), st.isAuthenticated = false → autoRefreshTick st d = []) := by
  refine ⟨⟨by norm_num [refreshIntervalMs], by norm_num [refreshIntervalMs]⟩,
    fun st d h => ?_, fun st d h => by simp [autoRefreshTick, h]⟩
  cases hb : st.isAuthenticated with
  | true => rfl
  | false => exact absurd (by simp [autoRefreshTick, hb]) h

/-- Witness for C4: an unauthenticated tick refreshes nothing, an
authenticated tick is indeed authenticated. -/
theorem autoRefresh_interval_and_auth_gate_witness :
    autoRefreshTick ⟨false, false⟩ true = [] ∧
    ClientState.isAuthenticated ⟨true, true⟩ = true :=
  ⟨autoRefresh_interval_and_auth_gate.2.2 ⟨false, false⟩ true rfl,
   autoRefresh_interval_and_auth_gate.2.1 ⟨true, true⟩ true (by simp [autoRefreshTick])⟩

/-- C5: in both copies of the client script, a login response with
`success == true` sets `isAuthenticated`, switches the auth UI to the
authenticated state and schedules a dashboard data refresh, while a
response with `success == false` displays the response's failure message
and leaves the authentication state unchanged (in particular
`isAuthenticated` is not set to true). -/
theorem login_success_failure_behaviour :
    (∀ (st : ClientState) (data : List (String × JSVal)),
      getField data "success" = JSVal.bool true →
        (AppJs.login st (Except.ok data)).1.isAuthenticated = true ∧
        (AppJs.login st (Except.ok data)).1.authUI = true ∧
        ClientAction.scheduleRefreshDashboard ∈ (AppJs.login st (Except.ok data)).2) ∧
    (∀ (st : ClientState) (data : List (String × JSVal)),
      getField data "success" = JSVal.bool false →
        ClientAction.showAlert (jsToString (getField data "message")) "danger" ∈
          (AppJs.login st (Except.ok data)).2 ∧
        (AppJs.login st (Except.ok data)).1 = st) ∧
    (∀ (st : ClientState) (data : List (String × JSVal)),
      getField data "success" = JSVal.bool true →
        (Part000.login st (Except.ok data)).1.isAuthenticated = true ∧
        (Part000.login st (Except.ok data)).1.authUI = true ∧
        ClientAction.scheduleRefreshDashboard ∈ (Part000.login st (Except.ok data)).2) ∧
    (∀ (st : ClientState) (data : List (String × JSVal)),
      getField data "success" = JSVal.bool false →
        ClientAction.showAlert (jsToString (getField data "message")) "danger" ∈
          (Part000.login st (Except.ok data)).2 ∧
        (Part000.login st (Except.ok data)).1 = st) := by
  refine ⟨fun st data h => ?_, fun st data h => ?_, fun st data h => ?_, fun st data h => ?_⟩ <;>
    simp [AppJs.login, Part000.login, h, truthy, updateAuthUI]

/-- Witness for C5 at a concrete successful and a concrete failed login
response. -/
theorem login_success_failure_behaviour_witness :
    (AppJs.login ⟨false, false⟩
        (Except.ok [("success", JSVal.bool true), ("message", JSVal.str "ok")])).1.isAuthenticated = true ∧
    (AppJs.login ⟨false, false⟩
        (Except.ok [("success", JSVal.bool false), ("message", JSVal.str "bad")])).1 = ⟨false, false⟩ :=
  ⟨(login_success_failure_behaviour.1 ⟨false, false⟩
      [("success", JSVal.bool true), ("message", JSVal.str "ok")] rfl).1,
   (login_success_failure_behaviour.2.1 ⟨false, false⟩
      [("success", JSVal.bool false), ("message", JSVal.str "bad")] rfl).2⟩

/-- C6 counterexample: the 7-character non-numeric input string "abcdefg"
triggers a quote lookup request even though it is not a symbol code of the
fixed length (6 digits), refuting the claim that a request is issued only
for 6-digit symbol codes. -/
theorem quote_request_without_six_digit_code :
    issuesQuoteRequest "abcdefg" = true ∧ isSixDigitSymbolCode "abcdefg" = false := by
  refine ⟨by decide, by decide⟩

/-- C6 amended: the stock-code input listener issues a quote lookup request
exactly when the entered value has length at least 6; inputs shorter than 6
characters issue no request, and neither the digit content nor an exact
length of 6 is checked. -/
theorem quote_request_iff_length_at_least_six (value : String) :
    issuesQuoteRequest value = true ↔ 6 ≤ value.length := by
  unfold issuesQuoteRequest stockCodeInputHandler
  split <;> simp_all

/-- C7: `connectWebSocket` registers handlers for exactly the events
`connect`, `disconnect`, `status`, `update` and `subscribed`; the
`subscribed` handler acknowledges by alerting with the payload's
`stock_code`, and the `update` handler dispatches the payload to
`handleRealTimeUpdate`. -/
theorem socket_events_and_handlers :
    socketHandlers.map Prod.fst = ["connect", "disconnect", "status", "update", "subscribed"] ∧
    (∀ data, ClientAction.showAlert (jsToString (getField data "stock_code") ++ " 종목 구독됨") "info" ∈
        onSubscribed data) ∧
    (∀ data, ClientAction.callHandleRealTimeUpdate data ∈ onUpdate data) := by
  refine ⟨rfl, fun data => ?_, fun data => ?_⟩ <;> simp [onSubscribed, onUpdate]

/-- C8: the numeric formatting helpers fail closed — for every input that
is null, undefined, the empty string, or not parseable as a number,
`formatNumber` returns "0" and `formatPercentage` returns "0.00%" (both
are total functions of this model, so neither throws), and
`formatCurrency` always equals `formatNumber` followed by the Korean
currency suffix. -/
theorem format_helpers_fail_closed :
    (∀ (host : Host) (v : JSVal), badNumericInput v = true →
      AppJs.formatNumber host v = "0" ∧ AppJs.formatPercentage host v = "0.00%") ∧
    (∀ (host : Host) (v : JSVal),
      AppJs.formatCurrency host v = AppJs.formatNumber host v ++ "원") := by
  refine ⟨fun host v hv => ?_, fun host v => rfl⟩
  by_cases h0 : isNullUndefEmpty v = true
  · exact ⟨by simp [AppJs.formatNumber, h0], by simp [AppJs.formatPercentage, h0]⟩
  · have hnan : parseFloatJS v = JSNum.nan := by
      simp only [badNumericInput, Bool.or_eq_true, decide_eq_true_eq] at hv
      rcases hv with h | h
      · exact absurd h h0
      · exact h
    exact ⟨by simp [AppJs.formatNumber, h0, hnan], by simp [AppJs.formatPercentage, h0, hnan]⟩

/-- Witness for C8 at the unparsable string "abc". -/
theorem format_helpers_fail_closed_witness :
    badNumericInput (JSVal.str "abc") = true ∧
    AppJs.formatNumber defaultHost (JSVal.str "abc") = "0" ∧
    AppJs.formatPercentage defaultHost (JSVal.str "abc") = "0.00%" ∧
    AppJs.formatCurrency defaultHost (JSVal.str "abc") =
      AppJs.formatNumber defaultHost (JSVal.str "abc") ++ "원" :=
  ⟨by decide,
   (format_helpers_fail_closed.1 defaultHost (JSVal.str "abc") (by decide)).1,
   (format_helpers_fail_closed.1 defaultHost (JSVal.str "abc") (by decide)).2,
   format_helpers_fail_closed.2 defaultHost (JSVal.str "abc")⟩

/-- C9: `handleRealTimeUpdate` invokes `updateRealTimeData` exactly when
the payload's `data` field is truthy and has at least one key; in
particular a payload without a `data` field, or whose `data` object has
zero keys, causes no UI update. -/
theorem empty_update_no_ui_change (payload : List (String × JSVal)) :
    (ClientAction.callUpdateRealTimeData (getField payload "data") ∈ handleRealTimeUpdate payload ↔
      truthy (getField payload "data") = true ∧
        0 < (objectKeys (getField payload "data")).length) ∧
    (getField payload "data" = JSVal.undefined → handleRealTimeUpdate payload = []) ∧
    (getField payload "data" = JSVal.obj [] → handleRealTimeUpdate payload = []) := by
  refine ⟨?_, fun h => ?_, fun h => ?_⟩
  · simp only [handleRealTimeUpdate]
    split <;> simp_all [Bool.and_eq_true]
  · simp [handleRealTimeUpdate, h, truthy]
  · simp [handleRealTimeUpdate, h, objectKeys]

/-- Witness for C9 at a payload without a `data` field and a payload whose
`data` object is empty. -/
theorem empty_update_no_ui_change_witness :
    handleRealTimeUpdate [("type", JSVal.str "update")] = [] ∧
    handleRealTimeUpdate [("data", JSVal.obj [])] = [] :=
  ⟨(empty_update_no_ui_change _).2.1 rfl, (empty_update_no_ui_change _).2.2 rfl⟩

/-- C10: the pure helper functions of the two copies of the dashboard
script are extensionally equal: for every host and input, `formatNumber`,
`formatCurrency`, `formatPercentage`, `formatDate`, `formatTime` and
`apiRequest` of src/static/js/app.js agree with the same-named functions of
src/unnamed/part_000. -/
theorem dashboard_script_copies_agree :
    (∀ (host : Host) (v : JSVal), AppJs.formatNumber host v = Part000.formatNumber host v) ∧
    (∀ (host : Host) (v : JSVal), AppJs.formatCurrency host v = Part000.formatCurrency host v) ∧
    (∀ (host : Host) (v : JSVal), AppJs.formatPercentage host v = Part000.formatPercentage host v) ∧
    (∀ (host : Host) (v : JSVal), AppJs.formatDate host v = Part000.formatDate host v) ∧
    (∀ (host : Host) (v : JSVal), AppJs.formatTime host v = Part000.formatTime host v) ∧
    (∀ (st : ClientState) (resp : ApiResponse), AppJs.apiRequest st resp = Part000.apiRequest st resp) :=
  ⟨fun _ _ => rfl, fun _ _ => rfl, fun _ _ => rfl, fun _ _ => rfl, fun _ _ => rfl, fun _ _ => rfl⟩
